import Mathlib

/-!
Shallow embedding of the MediaNow package pricing service
(price.service.ts together with the Sequelize models package.model.ts,
municipality.model.ts, price.model.ts, priceHistory.model.ts).

Rows are Lean structures; tables are lists of rows inside a DB state.
Auto-increment primary keys are modelled by nextPriceId / nextHistoryId
counters, and timestamps by a Nat millisecond clock field now.
The write path updatePackagePrice runs inside a transaction; a thrown
error rolls the transaction back, which is modelled by the wrapper
returning the original DB state together with Except.error.
JavaScript truthiness of the optional municipalityId argument
(undefined and 0 are both falsy) is modelled by munTruthy.
-/

/-- Row of the packages table (fields read by the pricing service). -/
structure Package where
  id : Nat
  name : String
  package_code : String
  is_active : Bool
deriving Repr, DecidableEq

/-- Row of the municipalities table (fields read by the pricing service). -/
structure Municipality where
  id : Nat
  municipality_name : String
  municipality_code : String
  is_active : Bool
deriving Repr, DecidableEq

/-- Row of the prices table: the current price for one
(packageId, municipalityId-or-null) key; municipalityId none models NULL. -/
structure Price where
  id : Nat
  packageId : Nat
  municipalityId : Option Nat
  priceCents : Int
  is_active : Bool
  currency_code : String
  createdAt : Nat
  updatedAt : Nat
deriving Repr, DecidableEq

/-- Row of the price_histories table (append-only, no updatedAt column). -/
structure PriceHistory where
  id : Nat
  packageId : Nat
  municipalityId : Option Nat
  priceCents : Int
  currency_code : String
  createdAt : Nat
deriving Repr, DecidableEq

/-- Whole database state. -/
structure DB where
  packages : List Package
  municipalities : List Municipality
  prices : List Price
  priceHistories : List PriceHistory
  nextPriceId : Nat
  nextHistoryId : Nat
  now : Nat
deriving Repr, DecidableEq

/-- Truthiness of the optional municipalityId parameter in JavaScript:
undefined (none) and 0 are falsy, every other number is truthy. -/
def munTruthy : Option Nat → Bool
  | none => false
  | some n => n != 0

/-- Key actually used for the row lookup and for the stored municipalityId
column: the branch municipalityId ? municipalityId : null in the where
clauses, and the expression municipalityId || undefined at row creation. -/
def effMunicipalityKey (m : Option Nat) : Option Nat :=
  if munTruthy m then m else none

/-- Math.round((priceCents / 100) * 100) / 100 from convertCentsToDisplay,
modelled over exact rationals. -/
def convertCentsToDisplay (priceCents : Int) : ℚ :=
  ((round (((priceCents : ℚ) / 100) * 100) : ℤ) : ℚ) / 100

/-- Where clause of Package.findOne: id = packageId AND is_active = true. -/
def activePackagePred (packageId : Nat) (p : Package) : Bool :=
  p.id == packageId && p.is_active

/-- Where clause of Municipality.findOne: id AND is_active = true. -/
def activeMunicipalityPred (municipalityId : Nat) (m : Municipality) : Bool :=
  m.id == municipalityId && m.is_active

/-- Where clause of Price.findOne: packageId, is_active = true and the
exact municipality key (null for global). -/
def activePricePred (packageId : Nat) (key : Option Nat) (p : Price) : Bool :=
  p.packageId == packageId && p.is_active && p.municipalityId == key

/-- Timestamp (ms) of Jan 1 00:00:00.000 of a year on the proleptic
Gregorian millisecond timeline: model of new Date(year, 0, 1). -/
def jan1Ms (year : Nat) : Nat :=
  86400000 * (365 * year + year / 4 - year / 100 + year / 400)

/-- Where clause of PriceHistory.findAll: packageId, createdAt in the
half-open window [startDate, endDate), and the exact municipality key. -/
def historyRowPred (packageId : Nat) (key : Option Nat)
    (startDate endDate : Nat) (h : PriceHistory) : Bool :=
  h.packageId == packageId &&
    (startDate ≤ h.createdAt && h.createdAt < endDate) &&
    h.municipalityId == key

/-- ORDER BY createdAt DESC as a relation on history rows. -/
def histDesc (a b : PriceHistory) : Prop :=
  b.createdAt ≤ a.createdAt

instance : DecidableRel histDesc := fun a b => Nat.decLe b.createdAt a.createdAt

instance : IsTotal PriceHistory histDesc :=
  ⟨fun a b => Nat.le_total b.createdAt a.createdAt⟩

instance : IsTrans PriceHistory histDesc :=
  ⟨fun _ _ _ hab hbc => Nat.le_trans hbc hab⟩

/-- Municipality detail shape used inside results. -/
structure MunicipalityInfo where
  id : Nat
  municipality_name : String
  municipality_code : String
deriving Repr, DecidableEq

/-- Package detail shape used inside results. -/
structure PackageInfo where
  id : Nat
  name : String
  package_code : String
deriving Repr, DecidableEq

def munInfoOf (m : Municipality) : MunicipalityInfo :=
  { id := m.id, municipality_name := m.municipality_name,
    municipality_code := m.municipality_code }

/-- Price shape returned by updatePackagePrice. -/
structure UpdatedPriceInfo where
  id : Nat
  packageId : Nat
  municipalityId : Option Nat
  priceCents : Int
  priceDisplay : ℚ
  currency_code : String
  municipality : Option MunicipalityInfo
deriving Repr, DecidableEq

/-- Successful result of updatePackagePrice. -/
structure PriceUpdateSuccess where
  success : Bool
  price : UpdatedPriceInfo
  message : String
deriving Repr, DecidableEq

/-- Price shape returned by getCurrentPackagePrice. -/
structure CurrentPriceInfo where
  id : Nat
  packageId : Nat
  municipalityId : Option Nat
  priceCents : Int
  priceDisplay : ℚ
  currency_code : String
  package : PackageInfo
  municipality : Option MunicipalityInfo
deriving Repr, DecidableEq

/-- Result of getCurrentPackagePrice (never throws). -/
structure CurrentPriceResult where
  success : Bool
  price : Option CurrentPriceInfo
  error : Option String
deriving Repr, DecidableEq

/-- History entry shape returned by getPackagePriceHistory. -/
structure PriceHistoryEntry where
  id : Nat
  packageId : Nat
  municipalityId : Option Nat
  priceCents : Int
  priceDisplay : ℚ
  currency_code : String
  createdAt : Nat
  municipality : Option MunicipalityInfo
deriving Repr, DecidableEq

/-- Result of getPackagePriceHistory (never throws). -/
structure PriceHistoryResult where
  success : Bool
  history : Option (List PriceHistoryEntry)
  error : Option String
deriving Repr, DecidableEq

/-- In-place update of an existing Price row:
existingPrice.update with the new priceCents and currency_code SEK. -/
def applyPriceUpdate (priceCents : Int) (now : Nat) (p : Price) : Price :=
  { p with priceCents := priceCents, currency_code := "SEK", updatedAt := now }

/-- Price.create with is_active true and municipalityId || undefined. -/
def newPriceRow (db : DB) (packageId : Nat) (key : Option Nat)
    (priceCents : Int) : Price :=
  { id := db.nextPriceId, packageId := packageId, municipalityId := key,
    priceCents := priceCents, is_active := true, currency_code := "SEK",
    createdAt := db.now, updatedAt := db.now }

/-- PriceHistory.create performed on every successful call. -/
def newHistoryRow (db : DB) (packageId : Nat) (key : Option Nat)
    (priceCents : Int) : PriceHistory :=
  { id := db.nextHistoryId, packageId := packageId, municipalityId := key,
    priceCents := priceCents, currency_code := "SEK", createdAt := db.now }

/-- Result shaping of updatePackagePrice: municipalityId || undefined,
display conversion, and municipality details when the id was truthy. -/
def updatedPriceInfo (newPrice : Price)
    (municipalityRecord : Option Municipality) : UpdatedPriceInfo :=
  { id := newPrice.id, packageId := newPrice.packageId,
    municipalityId := effMunicipalityKey newPrice.municipalityId,
    priceCents := newPrice.priceCents,
    priceDisplay := convertCentsToDisplay newPrice.priceCents,
    currency_code := newPrice.currency_code,
    municipality := municipalityRecord.map munInfoOf }

/-- Transaction body of updatePackagePrice: validate package, optionally
validate municipality (skipped when municipalityId is falsy), reject
negative amounts, find-or-create the active Price row for the exact key,
and append one PriceHistory row. Errors abort the transaction. -/
def updatePackagePriceTx (db : DB) (packageId : Nat) (priceCents : Int)
    (municipalityId : Option Nat) : Except String (PriceUpdateSuccess × DB) :=
  match db.packages.find? (activePackagePred packageId) with
  | none =>
    Except.error ("Package with ID " ++ toString packageId ++ " not found or inactive")
  | some _ =>
    match (if munTruthy municipalityId then
            match db.municipalities.find?
                (activeMunicipalityPred (municipalityId.getD 0)) with
            | some m => Except.ok (some m)
            | none =>
              Except.error ("Municipality with ID "
                ++ toString (municipalityId.getD 0) ++ " not found or inactive")
           else Except.ok none) with
    | Except.error e => Except.error e
    | Except.ok municipalityRecord =>
      if priceCents < 0 then Except.error "Price cannot be negative"
      else
        let key := effMunicipalityKey municipalityId
        let hist := newHistoryRow db packageId key priceCents
        match db.prices.find? (activePricePred packageId key) with
        | some existingPrice =>
          Except.ok
            ({ success := true,
               price := updatedPriceInfo
                 (applyPriceUpdate priceCents db.now existingPrice) municipalityRecord,
               message := "Price updated successfully" },
             { db with
               prices := db.prices.map (fun p =>
                 if p.id == existingPrice.id then applyPriceUpdate priceCents db.now p
                 else p),
               priceHistories := db.priceHistories ++ [hist],
               nextHistoryId := db.nextHistoryId + 1 })
        | none =>
          Except.ok
            ({ success := true,
               price := updatedPriceInfo
                 (newPriceRow db packageId key priceCents) municipalityRecord,
               message := "Price updated successfully" },
             { db with
               prices := db.prices ++ [newPriceRow db packageId key priceCents],
               nextPriceId := db.nextPriceId + 1,
               priceHistories := db.priceHistories ++ [hist],
               nextHistoryId := db.nextHistoryId + 1 })

/-- updatePackagePrice: commit on success; on any error the transaction
is rolled back, so the database state is returned unchanged. -/
def updatePackagePrice (db : DB) (packageId : Nat) (priceCents : Int)
    (municipalityId : Option Nat) : Except String PriceUpdateSuccess × DB :=
  match updatePackagePriceTx db packageId priceCents municipalityId with
  | Except.ok (r, dbNew) => (Except.ok r, dbNew)
  | Except.error msg => (Except.error msg, db)

/-- LEFT JOIN of the municipality association (include, required false)
followed by the field accesses municipality.id etc., which are performed
only when the municipalityId column of the row is truthy. A truthy id
whose municipality row is missing makes the field access throw a
TypeError (outer none). -/
def joinMunicipality (db : DB) (municipalityId : Option Nat) :
    Option (Option MunicipalityInfo) :=
  if munTruthy municipalityId then
    match db.municipalities.find? (fun m => m.id == municipalityId.getD 0) with
    | some m => some (some (munInfoOf m))
    | none => none
  else some none

/-- Result shaping of getCurrentPackagePrice. -/
def currentPriceInfoOf (priceRecord : Price) (packageRecord : Package)
    (munInfo : Option MunicipalityInfo) : CurrentPriceInfo :=
  { id := priceRecord.id, packageId := priceRecord.packageId,
    municipalityId := effMunicipalityKey priceRecord.municipalityId,
    priceCents := priceRecord.priceCents,
    priceDisplay := convertCentsToDisplay priceRecord.priceCents,
    currency_code := priceRecord.currency_code,
    package := { id := packageRecord.id, name := packageRecord.name,
                 package_code := packageRecord.package_code },
    municipality := munInfo }

/-- getCurrentPackagePrice: validate the package, look up the active Price
row for the exact key with no fallback, and shape the result. All
failures, the caught TypeError included, are returned as success false. -/
def getCurrentPackagePrice (db : DB) (packageId : Nat)
    (municipalityId : Option Nat) : CurrentPriceResult :=
  match db.packages.find? (activePackagePred packageId) with
  | none =>
    { success := false, price := none,
      error := some ("Package with ID " ++ toString packageId ++ " not found or inactive") }
  | some packageRecord =>
    let key := effMunicipalityKey municipalityId
    match db.prices.find? (activePricePred packageId key) with
    | none =>
      { success := false, price := none,
        error := some ("No active price found for package " ++ toString packageId ++
          (if munTruthy municipalityId then
            " in municipality " ++ toString (municipalityId.getD 0)
           else "")) }
    | some priceRecord =>
      match joinMunicipality db priceRecord.municipalityId with
      | some munInfo =>
        { success := true,
          price := some (currentPriceInfoOf priceRecord packageRecord munInfo),
          error := none }
      | none =>
        { success := false, price := none,
          error := some "Cannot read properties of null" }

/-- Result shaping of one history record in getPackagePriceHistory. -/
def historyEntryOf (record : PriceHistory)
    (munInfo : Option MunicipalityInfo) : PriceHistoryEntry :=
  { id := record.id, packageId := record.packageId,
    municipalityId := effMunicipalityKey record.municipalityId,
    priceCents := record.priceCents,
    priceDisplay := convertCentsToDisplay record.priceCents,
    currency_code := record.currency_code,
    createdAt := record.createdAt,
    municipality := munInfo }

/-- historyRecords.map over the fetched rows; a dangling truthy
municipality reference makes the whole mapping throw (none). -/
def shapeHistoryEntries (db : DB) :
    List PriceHistory → Option (List PriceHistoryEntry)
  | [] => some []
  | record :: rest =>
    match joinMunicipality db record.municipalityId with
    | none => none
    | some munInfo =>
      match shapeHistoryEntries db rest with
      | none => none
      | some entries => some (historyEntryOf record munInfo :: entries)

/-- getPackagePriceHistory: validate package and (when truthy) the
municipality, filter history rows of the exact key to the half-open year
window, order by createdAt descending, and shape the result. All
failures are returned as success false. -/
def getPackagePriceHistory (db : DB) (packageId : Nat) (year : Nat)
    (municipalityId : Option Nat) : PriceHistoryResult :=
  match db.packages.find? (activePackagePred packageId) with
  | none =>
    { success := false, history := none,
      error := some ("Package with ID " ++ toString packageId ++ " not found or inactive") }
  | some _ =>
    if munTruthy municipalityId &&
        (db.municipalities.find?
          (activeMunicipalityPred (municipalityId.getD 0))).isNone then
      { success := false, history := none,
        error := some ("Municipality with ID "
          ++ toString (municipalityId.getD 0) ++ " not found or inactive") }
    else
      let startDate := jan1Ms year
      let endDate := jan1Ms (year + 1)
      let key := effMunicipalityKey municipalityId
      let historyRecords := List.insertionSort histDesc
        (db.priceHistories.filter (historyRowPred packageId key startDate endDate))
      match shapeHistoryEntries db historyRecords with
      | some entries =>
        { success := true, history := some entries, error := none }
      | none =>
        { success := false, history := none,
          error := some "Cannot read properties of null" }

/-- Number of active Price rows for one exact key, the quantity bounded by
the partial unique index on (packageId, municipalityId, is_active). -/
def activePriceCount (db : DB) (packageId : Nat)
    (municipalityId : Option Nat) : Nat :=
  (db.prices.filter (activePricePred packageId municipalityId)).length

/-- Uniqueness invariant of the prices table. -/
def activeUniqueInvariant (db : DB) : Prop :=
  ∀ packageId municipalityId, activePriceCount db packageId municipalityId ≤ 1

/-- Number of PriceHistory rows for one exact key. -/
def historyCount (db : DB) (packageId : Nat)
    (municipalityId : Option Nat) : Nat :=
  (db.priceHistories.filter (fun h =>
    h.packageId == packageId && h.municipalityId == municipalityId)).length

/-- Projection of a stored history row to its identifying payload. -/
def historyProj (h : PriceHistory) : Nat × Nat × Int × Nat :=
  (h.id, h.packageId, h.priceCents, h.createdAt)

/-- Projection of a returned history entry to its identifying payload. -/
def entryProj (e : PriceHistoryEntry) : Nat × Nat × Int × Nat :=
  (e.id, e.packageId, e.priceCents, e.createdAt)

/-- Helper: a municipalityId other than some 0 is its own effective key. -/
theorem effMunicipalityKey_eq {m : Option Nat} (hm : m ≠ some 0) :
    effMunicipalityKey m = m := by
  cases m with
  | none => rfl
  | some n =>
    cases n with
    | zero => exact absurd rfl hm
    | succ k => rfl

/-- Helper: the display conversion is exact division by 100 on rationals. -/
theorem convertCentsToDisplay_spec (c : Int) :
    convertCentsToDisplay c = (c : ℚ) / 100 := by
  unfold convertCentsToDisplay
  have h : ((c : ℚ) / 100) * 100 = (c : ℚ) := by
    field_simp
  rw [h, round_intCast]

/-- Helper: full characterisation of a successful updatePackagePrice call:
reference tables unchanged, exactly one appended history row, and either
an in-place update of the found active row or an insert of a fresh one. -/
theorem upd_ok_spec (db : DB) (packageId : Nat) (priceCents : Int)
    (municipalityId : Option Nat) (r : PriceUpdateSuccess) (dbNew : DB)
    (h : updatePackagePrice db packageId priceCents municipalityId = (Except.ok r, dbNew)) :
    ∃ munRec : Option Municipality,
      dbNew.packages = db.packages ∧
      dbNew.municipalities = db.municipalities ∧
      dbNew.now = db.now ∧
      dbNew.nextHistoryId = db.nextHistoryId + 1 ∧
      dbNew.priceHistories = db.priceHistories ++
        [newHistoryRow db packageId (effMunicipalityKey municipalityId) priceCents] ∧
      r.message = "Price updated successfully" ∧
      ((∃ e, db.prices.find?
            (activePricePred packageId (effMunicipalityKey municipalityId)) = some e ∧
          r.price = updatedPriceInfo (applyPriceUpdate priceCents db.now e) munRec ∧
          dbNew.prices = db.prices.map (fun p =>
            if p.id == e.id then applyPriceUpdate priceCents db.now p else p) ∧
          dbNew.nextPriceId = db.nextPriceId)
       ∨ (db.prices.find?
            (activePricePred packageId (effMunicipalityKey municipalityId)) = none ∧
          r.price = updatedPriceInfo
            (newPriceRow db packageId (effMunicipalityKey municipalityId) priceCents) munRec ∧
          dbNew.prices = db.prices ++
            [newPriceRow db packageId (effMunicipalityKey municipalityId) priceCents] ∧
          dbNew.nextPriceId = db.nextPriceId + 1)) := by
  unfold updatePackagePrice at h
  cases htx : updatePackagePriceTx db packageId priceCents municipalityId with
  | error e => rw [htx] at h; simp at h
  | ok v =>
    rw [htx] at h
    obtain ⟨r', dbN⟩ := v
    simp only [Prod.mk.injEq, Except.ok.injEq] at h
    obtain ⟨rfl, rfl⟩ := h
    unfold updatePackagePriceTx at htx
    split at htx
    · simp at htx
    · split at htx
      · simp at htx
      · rename_i munRec _
        split at htx
        · simp at htx
        · simp only [] at htx
          split at htx
          · rename_i e hfind
            simp only [Except.ok.injEq, Prod.mk.injEq] at htx
            obtain ⟨hr, hdb⟩ := htx
            refine ⟨munRec, ?_⟩
            subst hdb
            rw [← hr]
            refine ⟨rfl, rfl, rfl, rfl, rfl, rfl, Or.inl ⟨e, hfind, rfl, rfl, rfl⟩⟩
          · rename_i hfind
            simp only [Except.ok.injEq, Prod.mk.injEq] at htx
            obtain ⟨hr, hdb⟩ := htx
            refine ⟨munRec, ?_⟩
            subst hdb
            rw [← hr]
            refine ⟨rfl, rfl, rfl, rfl, rfl, rfl, Or.inr ⟨hfind, rfl, rfl, rfl⟩⟩

/-- Sample database: one active package and one active municipality. -/
def sampleDB : DB :=
  { packages := [{ id := 1, name := "Basic", package_code := "BASIC", is_active := true }],
    municipalities := [{ id := 1, municipality_name := "Stockholm",
                         municipality_code := "STO", is_active := true }],
    prices := [], priceHistories := [], nextPriceId := 1, nextHistoryId := 1,
    now := 40000000000 }

/-- C2: setPrice is atomic. Whenever updatePackagePrice returns an error
(package or municipality missing or inactive, negative amount, or any
failing step of the transaction body), the returned database state equals
the input state: no Price row is created or mutated and no PriceHistory
row persists. -/
theorem setPriceAtomic (db : DB) (packageId : Nat) (priceCents : Int)
    (municipalityId : Option Nat) (msg : String)
    (h : (updatePackagePrice db packageId priceCents municipalityId).1 = Except.error msg) :
    (updatePackagePrice db packageId priceCents municipalityId).2 = db ∧
    (updatePackagePrice db packageId priceCents municipalityId).2.prices = db.prices ∧
    (updatePackagePrice db packageId priceCents municipalityId).2.priceHistories =
      db.priceHistories := by
  unfold updatePackagePrice at *
  cases htx : updatePackagePriceTx db packageId priceCents municipalityId with
  | ok v =>
    rw [htx] at h
    obtain ⟨r, dbN⟩ := v
    simp at h
  | error e =>
    exact ⟨rfl, rfl, rfl⟩

/-- Witness for C2: setPrice(1, 1000, municipalityId 999999) on sampleDB
errors out and leaves the database, hence both tables, unchanged. -/
theorem setPriceAtomic_witness :
    (updatePackagePrice sampleDB 1 1000 (some 999999)).1 =
      Except.error "Municipality with ID 999999 not found or inactive" ∧
    (updatePackagePrice sampleDB 1 1000 (some 999999)).2 = sampleDB ∧
    (updatePackagePrice sampleDB 1 1000 (some 999999)).2.priceHistories = [] :=
  ⟨rfl,
   (setPriceAtomic sampleDB 1 1000 (some 999999)
      "Municipality with ID 999999 not found or inactive" rfl).1,
   (setPriceAtomic sampleDB 1 1000 (some 999999)
      "Municipality with ID 999999 not found or inactive" rfl).2.2⟩

/-- C9: municipalityId 0 is indistinguishable from omitting it. All three
operations branch on truthiness of municipalityId, so passing 0 skips the
municipality existence check and targets the global (null) key; each call
with id 0 returns exactly the same result and state as the call without a
municipality, and no municipality-not-found error is produced for id 0. -/
theorem zeroMunicipalityActsAsGlobal (db : DB) (packageId : Nat)
    (priceCents : Int) (year : Nat) :
    updatePackagePrice db packageId priceCents (some 0) =
      updatePackagePrice db packageId priceCents none ∧
    getCurrentPackagePrice db packageId (some 0) =
      getCurrentPackagePrice db packageId none ∧
    getPackagePriceHistory db packageId year (some 0) =
      getPackagePriceHistory db packageId year none := by
  refine ⟨?_, ?_, ?_⟩ <;>
    simp [updatePackagePrice, updatePackagePriceTx, getCurrentPackagePrice,
      getPackagePriceHistory, munTruthy, effMunicipalityKey]

/-- Helper: every entry produced by the history result shaping comes from
some stored record through historyEntryOf. -/
theorem shapeHistoryEntries_mem (db : DB) (rows : List PriceHistory)
    (entries : List PriceHistoryEntry)
    (h : shapeHistoryEntries db rows = some entries) :
    ∀ e ∈ entries, ∃ rec mi, e = historyEntryOf rec mi := by
  induction rows generalizing entries with
  | nil =>
    unfold shapeHistoryEntries at h
    simp only [Option.some.injEq] at h
    subst h
    intro e he
    cases he
  | cons record rest ih =>
    unfold shapeHistoryEntries at h
    split at h
    · simp at h
    · rename_i mi _
      split at h
      · simp at h
      · rename_i entriesRest hrest
        simp only [Option.some.injEq] at h
        subst h
        intro e he
        rcases List.mem_cons.mp he with he | he
        · exact ⟨record, mi, he⟩
        · exact ih entriesRest hrest e he

/-- C8: display conversion. For every non-negative amount in minor units
the display amount is exactly amount / 100 (2999 gives 29.99, 0 gives 0),
and every price shape returned by the three operations carries
priceDisplay = priceCents / 100. -/
theorem displayConversionCorrect (c : Nat) :
    convertCentsToDisplay (c : Int) = (c : ℚ) / 100 ∧
    convertCentsToDisplay 2999 = 29.99 ∧
    convertCentsToDisplay 0 = 0 ∧
    (∀ db packageId priceCents municipalityId r dbNew,
      updatePackagePrice db packageId priceCents municipalityId = (Except.ok r, dbNew) →
      r.price.priceDisplay = (r.price.priceCents : ℚ) / 100) ∧
    (∀ db packageId municipalityId p,
      (getCurrentPackagePrice db packageId municipalityId).price = some p →
      p.priceDisplay = (p.priceCents : ℚ) / 100) ∧
    (∀ db packageId year municipalityId entries,
      (getPackagePriceHistory db packageId year municipalityId).history = some entries →
      ∀ e ∈ entries, e.priceDisplay = (e.priceCents : ℚ) / 100) := by
  refine ⟨convertCentsToDisplay_spec c,
    by rw [convertCentsToDisplay_spec]; norm_num,
    by rw [convertCentsToDisplay_spec]; norm_num, ?_, ?_, ?_⟩
  · intro db packageId priceCents municipalityId r dbNew h
    obtain ⟨munRec, -, -, -, -, -, -, hbr⟩ :=
      upd_ok_spec db packageId priceCents municipalityId r dbNew h
    rcases hbr with ⟨e, -, hr, -, -⟩ | ⟨-, hr, -, -⟩ <;>
      rw [hr] <;> simp [updatedPriceInfo, convertCentsToDisplay_spec]
  · intro db packageId municipalityId p h
    unfold getCurrentPackagePrice at h
    split at h
    · simp at h
    · simp only [] at h
      split at h
      · simp at h
      · split at h
        · simp only [Option.some.injEq] at h
          rw [← h]
          simp [currentPriceInfoOf, convertCentsToDisplay_spec]
        · simp at h
  · intro db packageId year municipalityId entries h e he
    unfold getPackagePriceHistory at h
    split at h
    · simp at h
    · split at h
      · simp at h
      · simp only [] at h
        split at h
        · rename_i entriesShaped hshape
          simp only [Option.some.injEq] at h
          subst h
          obtain ⟨rec, mi, rfl⟩ := shapeHistoryEntries_mem _ _ _ hshape e he
          simp [historyEntryOf, convertCentsToDisplay_spec]
        · simp at h

/-- Witness for C8 at 2999 and 0 minor units. -/
theorem displayConversionCorrect_witness :
    convertCentsToDisplay 2999 = 29.99 ∧ convertCentsToDisplay 0 = 0 :=
  ⟨(displayConversionCorrect 0).2.1, (displayConversionCorrect 0).2.2.1⟩

/-- C7: error-channel asymmetry. The write path signals each validation
failure by raising an error whose message identifies the failing entity,
while both read paths return every failure as a structured result with
success false and an error message, never raising. -/
theorem errorChannelAsymmetry (db : DB) (packageId : Nat) (priceCents : Int)
    (municipalityId : Option Nat) (year : Nat) :
    (db.packages.find? (activePackagePred packageId) = none →
      (updatePackagePrice db packageId priceCents municipalityId).1 =
        Except.error ("Package with ID " ++ toString packageId ++ " not found or inactive")) ∧
    (munTruthy municipalityId = true →
      db.municipalities.find? (activeMunicipalityPred (municipalityId.getD 0)) = none →
      (db.packages.find? (activePackagePred packageId)).isSome = true →
      (updatePackagePrice db packageId priceCents municipalityId).1 =
        Except.error ("Municipality with ID " ++ toString (municipalityId.getD 0) ++
          " not found or inactive")) ∧
    (priceCents < 0 →
      (db.packages.find? (activePackagePred packageId)).isSome = true →
      (munTruthy municipalityId = true →
        (db.municipalities.find?
          (activeMunicipalityPred (municipalityId.getD 0))).isSome = true) →
      (updatePackagePrice db packageId priceCents municipalityId).1 =
        Except.error "Price cannot be negative") ∧
    ((getCurrentPackagePrice db packageId municipalityId).success = false →
      (getCurrentPackagePrice db packageId municipalityId).error.isSome = true) ∧
    ((getPackagePriceHistory db packageId year municipalityId).success = false →
      (getPackagePriceHistory db packageId year municipalityId).error.isSome = true) := by
  refine ⟨?_, ?_, ?_, ?_, ?_⟩
  · intro hpkg
    unfold updatePackagePrice updatePackagePriceTx
    rw [hpkg]
  · intro hmt hmun hpkg
    obtain ⟨pkg, hpkg⟩ := Option.isSome_iff_exists.mp hpkg
    unfold updatePackagePrice updatePackagePriceTx
    rw [hpkg, if_pos hmt, hmun]
  · intro hneg hpkg hmun
    obtain ⟨pkg, hpkg⟩ := Option.isSome_iff_exists.mp hpkg
    unfold updatePackagePrice updatePackagePriceTx
    rw [hpkg]
    cases hmt : munTruthy municipalityId with
    | false =>
      rw [if_neg (by simp [hmt])]
      simp [hneg]
    | true =>
      obtain ⟨mun, hm⟩ := Option.isSome_iff_exists.mp (hmun hmt)
      simp [hm, hneg]
  · unfold getCurrentPackagePrice
    split
    · intro _; rfl
    · simp only []
      split
      · intro _; rfl
      · split
        · intro hs; simp at hs
        · intro _; rfl
  · unfold getPackagePriceHistory
    split
    · intro _; rfl
    · split
      · intro _; rfl
      · simp only []
        split
        · intro hs; simp at hs
        · intro _; rfl

/-- Witness for C7: on sampleDB, setPrice with an unknown municipality
raises the municipality message, and a read for a missing price returns a
structured failure with a message. -/
theorem errorChannelAsymmetry_witness :
    (updatePackagePrice sampleDB 1 1000 (some 999999)).1 =
      Except.error ("Municipality with ID " ++ toString 999999 ++ " not found or inactive") ∧
    (getCurrentPackagePrice sampleDB 1 (some 1)).error.isSome = true :=
  ⟨(errorChannelAsymmetry sampleDB 1 1000 (some 999999) 2025).2.1 rfl rfl rfl,
   (errorChannelAsymmetry sampleDB 1 1000 (some 1) 2025).2.2.2.1 rfl⟩

/-- C5: exact-key lookup with no fallback. With an active package, an
active global price on file and no active row for the exact key
(packageId, M), getCurrentPrice with municipalityId M returns a
structured no-active-price failure instead of the global price. -/
theorem noGlobalFallback (db : DB) (packageId M : Nat) (pkg : Package)
    (hM : 0 < M)
    (hpkg : db.packages.find? (activePackagePred packageId) = some pkg)
    (_hglobal : (db.prices.find? (activePricePred packageId none)).isSome = true)
    (hmiss : db.prices.find? (activePricePred packageId (some M)) = none) :
    getCurrentPackagePrice db packageId (some M) =
      { success := false, price := none,
        error := some ("No active price found for package " ++ toString packageId ++
          (" in municipality " ++ toString M)) } := by
  have hmt : munTruthy (some M) = true := by
    simp [munTruthy]
    omega
  have hkey : effMunicipalityKey (some M) = some M := by
    simp [effMunicipalityKey, hmt]
  unfold getCurrentPackagePrice
  rw [hpkg]
  simp only [hkey, hmiss, hmt, Option.getD_some, if_true]

/-- Sample database with an active global price for package 1 and no
municipality-specific price. -/
def sampleDBGlobal : DB :=
  { packages := [{ id := 1, name := "Basic", package_code := "BASIC", is_active := true }],
    municipalities := [{ id := 1, municipality_name := "Stockholm",
                         municipality_code := "STO", is_active := true }],
    prices := [{ id := 1, packageId := 1, municipalityId := none, priceCents := 1999,
                 is_active := true, currency_code := "SEK",
                 createdAt := 40000000000, updatedAt := 40000000000 }],
    priceHistories := [{ id := 1, packageId := 1, municipalityId := none,
                         priceCents := 1999, currency_code := "SEK",
                         createdAt := 40000000000 }],
    nextPriceId := 2, nextHistoryId := 2, now := 40000000001 }

/-- Witness for C5: package 1 has a global price but no Stockholm price,
and the Stockholm query reports no active price instead of falling back. -/
theorem noGlobalFallback_witness :
    getCurrentPackagePrice sampleDBGlobal 1 (some 1) =
      { success := false, price := none,
        error := some ("No active price found for package " ++ toString 1 ++
          (" in municipality " ++ toString 1)) } :=
  noGlobalFallback sampleDBGlobal 1 1
    { id := 1, name := "Basic", package_code := "BASIC", is_active := true }
    (by decide) rfl rfl rfl

/-- Sample database with an inactive municipality 2 that still has an
active price row for package 1. -/
def sampleDBInactiveMun : DB :=
  { packages := [{ id := 1, name := "Basic", package_code := "BASIC", is_active := true }],
    municipalities := [{ id := 2, municipality_name := "Ghost Town",
                         municipality_code := "GHO", is_active := false }],
    prices := [{ id := 1, packageId := 1, municipalityId := some 2, priceCents := 2499,
                 is_active := true, currency_code := "SEK",
                 createdAt := 40000000000, updatedAt := 40000000000 }],
    priceHistories := [{ id := 1, packageId := 1, municipalityId := some 2,
                         priceCents := 2499, currency_code := "SEK",
                         createdAt := 40000000000 }],
    nextPriceId := 2, nextHistoryId := 2, now := 40000000001 }

/-- C10: getCurrentPrice performs no existence or active check on the
municipality. When no active price row matches the exact key it reports
no active price found, whatever the municipalities table contains; and
when an active price row exists whose municipality is inactive, the
price is still returned successfully with that municipality joined. -/
theorem currentPriceSkipsMunicipalityCheck (db : DB) (packageId M : Nat)
    (pkg : Package) (hM : 0 < M)
    (hpkg : db.packages.find? (activePackagePred packageId) = some pkg) :
    (db.prices.find? (activePricePred packageId (some M)) = none →
      getCurrentPackagePrice db packageId (some M) =
        { success := false, price := none,
          error := some ("No active price found for package " ++ toString packageId ++
            (" in municipality " ++ toString M)) }) ∧
    (∀ p mun, db.prices.find? (activePricePred packageId (some M)) = some p →
      db.municipalities.find? (fun m => m.id == M) = some mun →
      mun.is_active = false →
      (getCurrentPackagePrice db packageId (some M)).success = true ∧
      (getCurrentPackagePrice db packageId (some M)).price =
        some (currentPriceInfoOf p pkg (some (munInfoOf mun)))) := by
  have hmt : munTruthy (some M) = true := by
    simp [munTruthy]
    omega
  have hkey : effMunicipalityKey (some M) = some M := by
    simp [effMunicipalityKey, hmt]
  constructor
  · intro hmiss
    unfold getCurrentPackagePrice
    rw [hpkg]
    simp only [hkey, hmiss, hmt, Option.getD_some, if_true]
  · intro p mun hfound hmun _hinactive
    have hpM : p.municipalityId = some M := by
      have := List.find?_some hfound
      unfold activePricePred at this
      simp only [Bool.and_eq_true, beq_iff_eq] at this
      exact this.2
    unfold getCurrentPackagePrice
    rw [hpkg]
    simp only [hkey, hfound]
    unfold joinMunicipality
    rw [hpM]
    simp only [hmt, Option.getD_some, if_true, hmun]
    exact ⟨trivial, trivial⟩

/-- Witness for C10: package 1 in municipality 2, whose municipality row
is inactive, still yields its active price row. -/
theorem currentPriceSkipsMunicipalityCheck_witness :
    (getCurrentPackagePrice sampleDBInactiveMun 1 (some 2)).success = true ∧
    (getCurrentPackagePrice sampleDBInactiveMun 1 (some 2)).price =
      some (currentPriceInfoOf
        { id := 1, packageId := 1, municipalityId := some 2, priceCents := 2499,
          is_active := true, currency_code := "SEK",
          createdAt := 40000000000, updatedAt := 40000000000 }
        { id := 1, name := "Basic", package_code := "BASIC", is_active := true }
        (some (munInfoOf { id := 2, municipality_name := "Ghost Town",
                           municipality_code := "GHO", is_active := false }))) :=
  (currentPriceSkipsMunicipalityCheck sampleDBInactiveMun 1 2
    { id := 1, name := "Basic", package_code := "BASIC", is_active := true }
    (by decide) rfl).2
    { id := 1, packageId := 1, municipalityId := some 2, priceCents := 2499,
      is_active := true, currency_code := "SEK",
      createdAt := 40000000000, updatedAt := 40000000000 }
    { id := 2, municipality_name := "Ghost Town", municipality_code := "GHO",
      is_active := false }
    rfl rfl rfl

/-- C3: history append law. Every successful setPrice call (with a
municipalityId other than the falsy 0) appends exactly one PriceHistory
row carrying the call key, amount and currency, so the history count for
that exact key grows by one and every other key is untouched. -/
theorem historyAppendLaw (db : DB) (packageId : Nat) (priceCents : Int)
    (municipalityId : Option Nat) (r : PriceUpdateSuccess) (dbNew : DB)
    (hmid : municipalityId ≠ some 0)
    (h : updatePackagePrice db packageId priceCents municipalityId = (Except.ok r, dbNew)) :
    dbNew.priceHistories = db.priceHistories ++
      [{ id := db.nextHistoryId, packageId := packageId,
         municipalityId := municipalityId, priceCents := priceCents,
         currency_code := "SEK", createdAt := db.now }] ∧
    historyCount dbNew packageId municipalityId =
      historyCount db packageId municipalityId + 1 ∧
    (∀ pid mid, pid ≠ packageId ∨ mid ≠ municipalityId →
      historyCount dbNew pid mid = historyCount db pid mid) := by
  obtain ⟨munRec, -, -, -, -, hhist, -, -⟩ :=
    upd_ok_spec db packageId priceCents municipalityId r dbNew h
  rw [effMunicipalityKey_eq hmid] at hhist
  refine ⟨by rw [hhist]; rfl, ?_, ?_⟩
  · unfold historyCount
    rw [hhist, List.filter_append, List.length_append]
    simp [newHistoryRow]
  · intro pid mid hne
    unfold historyCount
    rw [hhist, List.filter_append, List.length_append]
    have hc : (fun h : PriceHistory => h.packageId == pid && h.municipalityId == mid)
        (newHistoryRow db packageId municipalityId priceCents) = false := by
      unfold newHistoryRow
      rcases hne with hk | hk
      · simp [beq_iff_eq, Ne.symm hk]
      · simp [beq_iff_eq, Ne.symm hk]
    have hnil : List.filter (fun h : PriceHistory => h.packageId == pid && h.municipalityId == mid)
        [newHistoryRow db packageId municipalityId priceCents] = [] := by
      simp [hc]
    rw [hnil]
    rfl

/-- Concrete result of the first sample call setPrice(1, 1999). -/
def sampleR1 : PriceUpdateSuccess :=
  { success := true,
    price := { id := 1, packageId := 1, municipalityId := none, priceCents := 1999,
               priceDisplay := convertCentsToDisplay 1999, currency_code := "SEK",
               municipality := none },
    message := "Price updated successfully" }

/-- Database state after the first sample call. -/
def sampleDBAfter1 : DB := (updatePackagePrice sampleDB 1 1999 none).2

/-- Witness for C3: the first sample call appends exactly one history
row for the global key of package 1. -/
theorem historyAppendLaw_witness :
    sampleDBAfter1.priceHistories = sampleDB.priceHistories ++
      [{ id := 1, packageId := 1, municipalityId := none, priceCents := 1999,
         currency_code := "SEK", createdAt := 40000000000 }] ∧
    historyCount sampleDBAfter1 1 none = historyCount sampleDB 1 none + 1 ∧
    historyCount sampleDBAfter1 2 none = historyCount sampleDB 2 none :=
  ⟨(historyAppendLaw sampleDB 1 1999 none sampleR1 sampleDBAfter1 (by decide) rfl).1,
   (historyAppendLaw sampleDB 1 1999 none sampleR1 sampleDBAfter1 (by decide) rfl).2.1,
   (historyAppendLaw sampleDB 1 1999 none sampleR1 sampleDBAfter1 (by decide) rfl).2.2
     2 none (Or.inl (by decide))⟩

/-- Helper: the in-place row rewrite of the update branch preserves the
fields read by the active-price where clause. -/
theorem activePricePred_comp_update (packageId : Nat) (key : Option Nat)
    (priceCents : Int) (now eid : Nat) :
    (activePricePred packageId key) ∘
      (fun p => if p.id == eid then applyPriceUpdate priceCents now p else p) =
    activePricePred packageId key := by
  funext q
  by_cases hq : (q.id == eid) = true
  · simp only [Function.comp_apply, hq, if_true]
    rfl
  · simp only [Function.comp_apply, hq, if_false]
    rfl

/-- Helper: a freshly inserted price row matches its own where clause. -/
theorem activePricePred_newPriceRow (db : DB) (packageId : Nat)
    (key : Option Nat) (priceCents : Int) :
    activePricePred packageId key (newPriceRow db packageId key priceCents) = true := by
  simp [activePricePred, newPriceRow]

/-- C4: stable identifier. Two consecutive successful setPrice calls for
the same key return the same Price id (the second call updates the row
of the first in place) while the history table gains two rows. -/
theorem stablePriceIdentifier (db : DB) (packageId : Nat) (c1 c2 : Int)
    (municipalityId : Option Nat) (r1 r2 : PriceUpdateSuccess) (db1 db2 : DB)
    (h1 : updatePackagePrice db packageId c1 municipalityId = (Except.ok r1, db1))
    (h2 : updatePackagePrice db1 packageId c2 municipalityId = (Except.ok r2, db2)) :
    r2.price.id = r1.price.id ∧
    db2.priceHistories.length = db.priceHistories.length + 2 := by
  obtain ⟨mr1, -, -, -, -, hh1, -, hbr1⟩ :=
    upd_ok_spec db packageId c1 municipalityId r1 db1 h1
  obtain ⟨mr2, -, -, -, -, hh2, -, hbr2⟩ :=
    upd_ok_spec db1 packageId c2 municipalityId r2 db2 h2
  constructor
  · rcases hbr1 with ⟨e, hfind1, hr1, hprices1, -⟩ | ⟨hfind1, hr1, hprices1, -⟩
    · have hfind2 : db1.prices.find?
          (activePricePred packageId (effMunicipalityKey municipalityId)) =
          some (applyPriceUpdate c1 db.now e) := by
        rw [hprices1, List.find?_map, activePricePred_comp_update, hfind1]
        simp
      rcases hbr2 with ⟨e2, hfind2', hr2, -, -⟩ | ⟨hfind2', -, -, -⟩
      · rw [hfind2] at hfind2'
        have he2 : e2 = applyPriceUpdate c1 db.now e := by
          exact (Option.some.inj hfind2').symm
        rw [hr1, hr2, he2]
        rfl
      · rw [hfind2] at hfind2'
        cases hfind2'
    · have hfind2 : db1.prices.find?
          (activePricePred packageId (effMunicipalityKey municipalityId)) =
          some (newPriceRow db packageId (effMunicipalityKey municipalityId) c1) := by
        rw [hprices1, List.find?_append, hfind1]
        simp [activePricePred_newPriceRow]
      rcases hbr2 with ⟨e2, hfind2', hr2, -, -⟩ | ⟨hfind2', -, -, -⟩
      · rw [hfind2] at hfind2'
        have he2 : e2 = newPriceRow db packageId (effMunicipalityKey municipalityId) c1 :=
          (Option.some.inj hfind2').symm
        rw [hr1, hr2, he2]
        rfl
      · rw [hfind2] at hfind2'
        cases hfind2'
  · rw [hh2, hh1]
    simp

/-- Concrete result of the second sample call setPrice(1, 2499): same
Price id as the first call. -/
def sampleR2 : PriceUpdateSuccess :=
  { success := true,
    price := { id := 1, packageId := 1, municipalityId := none, priceCents := 2499,
               priceDisplay := convertCentsToDisplay 2499, currency_code := "SEK",
               municipality := none },
    message := "Price updated successfully" }

/-- Database state after the second sample call. -/
def sampleDBAfter2 : DB := (updatePackagePrice sampleDBAfter1 1 2499 none).2

/-- Witness for C4: setPrice(1, 1999) then setPrice(1, 2499) keep the
Price id and add two history rows. -/
theorem stablePriceIdentifier_witness :
    sampleR2.price.id = sampleR1.price.id ∧
    sampleDBAfter2.priceHistories.length = sampleDB.priceHistories.length + 2 :=
  stablePriceIdentifier sampleDB 1 1999 2499 none sampleR1 sampleR2
    sampleDBAfter1 sampleDBAfter2 rfl rfl

/-- C1: at most one active Price row per (packageId, municipalityId) key,
null counting as its own key. The invariant is preserved by every
updatePackagePrice call: the update branch rewrites the found row in
place without touching key fields, the insert branch only fires when the
key had no active row, and errors roll the state back. -/
theorem activeUniquePreserved (db : DB) (packageId : Nat) (priceCents : Int)
    (municipalityId : Option Nat) (res : Except String PriceUpdateSuccess) (dbNew : DB)
    (hinv : activeUniqueInvariant db)
    (h : updatePackagePrice db packageId priceCents municipalityId = (res, dbNew)) :
    activeUniqueInvariant dbNew := by
  cases res with
  | error e =>
    have hdb : dbNew = db := by
      unfold updatePackagePrice at h
      cases htx : updatePackagePriceTx db packageId priceCents municipalityId with
      | ok v =>
        rw [htx] at h
        obtain ⟨r', dbN⟩ := v
        simp at h
      | error msg =>
        rw [htx] at h
        simp only [Prod.mk.injEq] at h
        exact h.2.symm
    rw [hdb]
    exact hinv
  | ok r =>
    obtain ⟨munRec, -, -, -, -, -, -, hbr⟩ :=
      upd_ok_spec db packageId priceCents municipalityId r dbNew h
    rcases hbr with ⟨e, hfind, -, hprices, -⟩ | ⟨hfind, -, hprices, -⟩
    · intro pid mid
      unfold activePriceCount
      rw [hprices, List.filter_map, activePricePred_comp_update, List.length_map]
      exact hinv pid mid
    · intro pid mid
      unfold activePriceCount
      rw [hprices, List.filter_append, List.length_append]
      by_cases hkey : pid = packageId ∧ mid = effMunicipalityKey municipalityId
      · obtain ⟨rfl, rfl⟩ := hkey
        have hnil : db.prices.filter
            (activePricePred pid (effMunicipalityKey municipalityId)) = [] := by
          rw [List.filter_eq_nil_iff]
          intro a ha
          simpa using List.find?_eq_none.mp hfind a ha
        rw [hnil]
        simp [activePricePred_newPriceRow]
      · have hc : activePricePred pid mid
            (newPriceRow db packageId (effMunicipalityKey municipalityId) priceCents) = false := by
          unfold activePricePred newPriceRow
          rw [not_and_or] at hkey
          rcases hkey with hk | hk
          · simp [beq_iff_eq, Ne.symm hk]
          · simp [beq_iff_eq, Ne.symm hk]
        have hnil : List.filter (activePricePred pid mid)
            [newPriceRow db packageId (effMunicipalityKey municipalityId) priceCents] = [] := by
          simp [hc]
        rw [hnil]
        simpa using hinv pid mid

/-- Witness for C1: the sample state satisfies the invariant and so does
the state after setPrice(1, 1999); the touched key holds one active row. -/
theorem activeUniquePreserved_witness :
    activePriceCount sampleDBAfter1 1 none ≤ 1 ∧
    activePriceCount sampleDBAfter1 1 none = 1 :=
  ⟨activeUniquePreserved sampleDB 1 1999 none (Except.ok sampleR1) sampleDBAfter1
    (fun pid mid => by simp [activePriceCount, sampleDB]) rfl 1 none,
   by decide⟩

/-- Helper: the result shaping preserves the identifying payload and the
creation timestamp of every fetched row, in order. -/
theorem shapeHistoryEntries_maps (db : DB) (rows : List PriceHistory)
    (entries : List PriceHistoryEntry)
    (h : shapeHistoryEntries db rows = some entries) :
    entries.map entryProj = rows.map historyProj ∧
    entries.map (fun e => e.createdAt) = rows.map (fun rec => rec.createdAt) := by
  induction rows generalizing entries with
  | nil =>
    unfold shapeHistoryEntries at h
    simp only [Option.some.injEq] at h
    subst h
    exact ⟨rfl, rfl⟩
  | cons record rest ih =>
    unfold shapeHistoryEntries at h
    split at h
    · simp at h
    · rename_i mi _
      split at h
      · simp at h
      · rename_i entriesRest hrest
        simp only [Option.some.injEq] at h
        subst h
        obtain ⟨ha, hb⟩ := ih entriesRest hrest
        refine ⟨?_, ?_⟩
        · simp only [List.map_cons, ha]
          rfl
        · simp only [List.map_cons, hb]
          rfl

/-- Helper: the year window is nonempty, i.e. Jan 1 of a year strictly
precedes Jan 1 of the next year. -/
theorem jan1Ms_lt_succ (year : Nat) : jan1Ms year < jan1Ms (year + 1) := by
  unfold jan1Ms
  omega

/-- C6: getPriceHistory returns exactly the history rows of the exact key
whose creation timestamp lies in the half-open window from Jan 1 of the
year (inclusive) to Jan 1 of the next year (exclusive), ordered by
creation timestamp descending. -/
theorem historyWindowAndOrder (db : DB) (packageId year : Nat)
    (municipalityId : Option Nat) (entries : List PriceHistoryEntry)
    (hmid : municipalityId ≠ some 0)
    (h : getPackagePriceHistory db packageId year municipalityId =
      { success := true, history := some entries, error := none }) :
    (entries.map entryProj).Perm
      ((db.priceHistories.filter
        (historyRowPred packageId municipalityId (jan1Ms year) (jan1Ms (year + 1)))).map
        historyProj) ∧
    entries.Pairwise (fun a b => b.createdAt ≤ a.createdAt) ∧
    (∀ hrow : PriceHistory, hrow.packageId = packageId →
      hrow.municipalityId = municipalityId →
      (hrow.createdAt = jan1Ms year →
        historyRowPred packageId municipalityId (jan1Ms year) (jan1Ms (year + 1)) hrow = true) ∧
      (hrow.createdAt = jan1Ms (year + 1) →
        historyRowPred packageId municipalityId (jan1Ms year) (jan1Ms (year + 1)) hrow = false)) := by
  have hkey := effMunicipalityKey_eq hmid
  unfold getPackagePriceHistory at h
  split at h
  · simp at h
  · split at h
    · simp at h
    · simp only [] at h
      split at h
      · rename_i entriesShaped hshape
        simp only [PriceHistoryResult.mk.injEq, Option.some.injEq, and_true, true_and] at h
        subst h
        rw [hkey] at hshape
        obtain ⟨hproj, hcre⟩ := shapeHistoryEntries_maps _ _ _ hshape
        refine ⟨?_, ?_, ?_⟩
        · rw [hproj]
          exact List.Perm.map historyProj (List.perm_insertionSort histDesc _)
        · have hs : (List.insertionSort histDesc
              (db.priceHistories.filter
                (historyRowPred packageId municipalityId (jan1Ms year)
                  (jan1Ms (year + 1))))).Pairwise histDesc :=
            List.sorted_insertionSort histDesc _
          have h1 : ((List.insertionSort histDesc
              (db.priceHistories.filter
                (historyRowPred packageId municipalityId (jan1Ms year)
                  (jan1Ms (year + 1))))).map (fun rec => rec.createdAt)).Pairwise
              (fun a b => b ≤ a) :=
            List.pairwise_map.mpr hs
          rw [← hcre] at h1
          exact List.pairwise_map.mp h1
        · intro hrow h1 h2
          constructor
          · intro h3
            unfold historyRowPred
            simp [h1, h2, h3, jan1Ms_lt_succ]
          · intro h3
            unfold historyRowPred
            simp [h3]
      · simp at h

/-- History row created exactly at Jan 1 of year 1 (window start). -/
def histRow1 : PriceHistory :=
  { id := 1, packageId := 1, municipalityId := none, priceCents := 1000,
    currency_code := "SEK", createdAt := 31536000000 }

/-- History row created in the middle of year 1. -/
def histRow2 : PriceHistory :=
  { id := 2, packageId := 1, municipalityId := none, priceCents := 2000,
    currency_code := "SEK", createdAt := 40000000000 }

/-- History row created later in year 1. -/
def histRow3 : PriceHistory :=
  { id := 3, packageId := 1, municipalityId := none, priceCents := 3000,
    currency_code := "SEK", createdAt := 50000000000 }

/-- History row created exactly at Jan 1 of year 2 (window end). -/
def histRow4 : PriceHistory :=
  { id := 4, packageId := 1, municipalityId := none, priceCents := 4000,
    currency_code := "SEK", createdAt := 63072000000 }

/-- Sample database with four global history rows around the year-1
window boundaries. -/
def sampleDBHist : DB :=
  { packages := [{ id := 1, name := "Basic", package_code := "BASIC", is_active := true }],
    municipalities := [],
    prices := [],
    priceHistories := [histRow1, histRow2, histRow3, histRow4],
    nextPriceId := 1, nextHistoryId := 5, now := 70000000000 }

/-- Entries returned for year 1: rows 3, 2, 1 most recent first; the row
at the start of year 2 is excluded. -/
def sampleHistEntries : List PriceHistoryEntry :=
  [historyEntryOf histRow3 none, historyEntryOf histRow2 none,
   historyEntryOf histRow1 none]

/-- Witness for C6: on the sample history for year 1 the result is the
window rows ordered descending; the row at the window start is kept and
the row at the start of the next year is dropped. -/
theorem historyWindowAndOrder_witness :
    (sampleHistEntries.map entryProj).Perm
      ((sampleDBHist.priceHistories.filter
        (historyRowPred 1 none (jan1Ms 1) (jan1Ms (1 + 1)))).map historyProj) ∧
    sampleHistEntries.Pairwise (fun a b => b.createdAt ≤ a.createdAt) ∧
    historyRowPred 1 none (jan1Ms 1) (jan1Ms (1 + 1)) histRow1 = true ∧
    historyRowPred 1 none (jan1Ms 1) (jan1Ms (1 + 1)) histRow4 = false :=
  have T := historyWindowAndOrder sampleDBHist 1 1 none sampleHistEntries
    (by decide) (by rfl)
  ⟨T.1, T.2.1, (T.2.2 histRow1 rfl rfl).1 (by decide), (T.2.2 histRow4 rfl rfl).2 (by decide)⟩
